import Mathlib

/-!
Verification development for the travel-booking tool set
(`src/ai_assistant/tools.py`): four reservation constructors
(`reserve_flight`, `reserve_bus`, `reserve_hotel`, `reserve_restaurant`)
and the trip-report aggregator (`generate_trip_report`).

The Python code is shallowly embedded:

* JSON scalar values become `JVal`; a log entry (a flat JSON object, per
  the on-disk `LogEntry` shape) becomes an association list
  `Entry := List (String × JVal)` whose keys are unique (objects produced
  by `json.load` have unique keys).
* The log file seen by `generate_trip_report` is abstracted by `LogFile`:
  absent (`open` raises `FileNotFoundError`), present-but-invalid-JSON
  (`json.load` raises `json.JSONDecodeError`), or a well-formed JSON
  array of flat objects.
* Python exceptions that the code does not catch (`KeyError` from
  `entry['reservation_type']`, `TypeError` from `total_cost += cost`
  with a non-integer) become the `.error` side of `Except PyErr`.
* `random.randint(a, b)` becomes a deterministic function of an explicit
  `seed` argument, with the guarantee `a ≤ randint a b seed ≤ b`.
* The classes in `ai_assistant/models.py` and the function
  `save_reservation` in `ai_assistant/utils.py` are imported by
  `tools.py` but their sources are not in the repository snapshot; they
  are modelled from the specification (marked `Modelled from the spec:`
  in their doc comments).
-/

/-- A JSON scalar value, as found in the fields of a flat log entry
(the `LogEntry` on-disk shape: strings, integers, and the other JSON
scalars). -/
inductive JVal where
  | null
  | bool (b : Bool)
  | num (n : Int)
  | str (s : String)
deriving DecidableEq, Repr

/-- A log entry: a flat JSON object, i.e. an association list from field
names to scalar values. Objects produced by `json.load` have unique
keys. -/
abbrev Entry := List (String × JVal)

/-- Python `entry.get(k)` / `entry[k]` lookup (as an `Option`). -/
def Entry.get (e : Entry) (k : String) : Option JVal :=
  List.lookup k e

/-- The state of the configured log file when `generate_trip_report`
runs: the file may be absent (`open` raises `FileNotFoundError`), its
content may fail to parse as JSON (`json.load` raises
`JSONDecodeError`), or it holds a well-formed JSON array of flat
objects. -/
inductive LogFile where
  | absent
  | invalid
  | valid (entries : List Entry)

/-- Python exceptions that `generate_trip_report` does not catch and
that therefore escape to the caller. -/
inductive PyErr where
  | keyError (k : String)
  | typeError
deriving DecidableEq, Repr

/-- Python `str(v)` for a JSON scalar, as used by f-string interpolation
in the report lines. -/
def pyStr : JVal → String
  | .null => "None"
  | .bool b => if b then "True" else "False"
  | .num n => toString n
  | .str s => s

/-- Line 170 of `tools.py`:
`city = entry.get('city', entry.get('destination', 'Unknown'))`. -/
def groupKey (e : Entry) : JVal :=
  (e.get "city").getD ((e.get "destination").getD (.str "Unknown"))

/-- Line 171 of `tools.py`: `date = entry.get('date',
entry.get('checkin_date', entry.get('reservation_time', 'Unknown')))`. -/
def dispDate (e : Entry) : JVal :=
  (e.get "date").getD ((e.get "checkin_date").getD
    ((e.get "reservation_time").getD (.str "Unknown")))

/-- Lines 172–173 of `tools.py`: `cost = entry.get('cost', 0)` followed
by `total_cost += cost`, which raises `TypeError` when the value is not
a number. -/
def entryCost (e : Entry) : Except PyErr Int :=
  match (e.get "cost").getD (.num 0) with
  | .num n => .ok n
  | _ => .error .typeError

/-- Line 178 of `tools.py`: the subscript `entry['reservation_type']`,
which raises `KeyError` when the field is absent. -/
def entryResType (e : Entry) : Except PyErr JVal :=
  match e.get "reservation_type" with
  | some v => .ok v
  | none => .error (.keyError "reservation_type")

/-- The `places_visited` dictionary: insertion-ordered (Python dicts
preserve insertion order), mapping each grouping key to its list of
activity lines. -/
abbrev PlacesDict := List (JVal × List String)

/-- Lines 175–176 of `tools.py`: `if city not in places_visited:
places_visited[city] = []`. A new key is inserted at the end (Python
dict insertion order). -/
def dictInsert (d : PlacesDict) (k : JVal) : PlacesDict :=
  if k ∈ d.map Prod.fst then d else d ++ [(k, [])]

/-- Line 179 of `tools.py`: `places_visited[city].append(activity)`. -/
def dictAppend (d : PlacesDict) (k : JVal) (v : String) : PlacesDict :=
  d.map (fun p => if p.1 = k then (p.1, p.2 ++ [v]) else p)

/-- One iteration of the `for entry in trip_data` loop (lines 169–179 of
`tools.py`), threading the `(total_cost, places_visited)` state.
Evaluation order matches the Python: the `cost` addition (a possible
`TypeError`) happens before the `entry['reservation_type']` subscript (a
possible `KeyError`). -/
def processEntry (st : Int × PlacesDict) (e : Entry) :
    Except PyErr (Int × PlacesDict) := do
  let city := groupKey e
  let date := dispDate e
  let cost ← entryCost e
  let total := st.1 + cost
  let places := dictInsert st.2 city
  let rt ← entryResType e
  let activity := pyStr rt ++ " on " ++ pyStr date ++ " - Cost: $" ++ toString cost
  pure (total, dictAppend places city activity)

/-- The `for entry in trip_data` loop from an intermediate
`(total_cost, places_visited)` state: process each entry in turn,
propagating any uncaught exception. -/
def processEntriesFrom (st : Int × PlacesDict) :
    List Entry → Except PyErr (Int × PlacesDict)
  | [] => .ok st
  | e :: rest =>
    match processEntry st e with
    | .ok st' => processEntriesFrom st' rest
    | .error er => .error er

/-- The whole `for entry in trip_data` loop, starting from
`total_cost = 0` and `places_visited = {}`. -/
def processEntries (entries : List Entry) : Except PyErr (Int × PlacesDict) :=
  processEntriesFrom (0, []) entries

/-- Lines 182–187 of `tools.py`: build the `report` list of lines — for
each city, `report.append(f"City: {city}")`, `report.extend(activities)`,
`report.append("\n")` — then append the grand-total line. -/
def buildReport (places : PlacesDict) (total : Int) : List String :=
  (places.foldl
      (fun report p => report ++ ["City: " ++ pyStr p.1] ++ p.2 ++ ["\n"])
      []) ++
    ["Total budget for the trip: $" ++ toString total]

/-- `generate_trip_report` (lines 149–194 of `tools.py`).
`FileNotFoundError` and `json.JSONDecodeError` are caught and turned
into the two literal error strings (returned normally, hence `.ok`);
any `KeyError`/`TypeError` raised inside the loop escapes (`.error`).
The final report is `"\n".join(report)`. -/
def generate_trip_report (f : LogFile) : Except PyErr String :=
  match f with
  | .absent => .ok "Error: trip log file not found."
  | .invalid => .ok "Error: Could not decode the trip log file."
  | .valid entries =>
    match processEntries entries with
    | .error e => .error e
    | .ok (total, places) =>
        .ok (String.intercalate "\n" (buildReport places total))

/-- A Python `datetime.date`: `date(year, month, day)` validates
`MINYEAR = 1 ≤ year ≤ 9999`, `1 ≤ month ≤ 12` and
`1 ≤ day ≤ days-in-month`. -/
structure PyDate where
  year : Nat
  month : Nat
  day : Nat
deriving DecidableEq, Repr

/-- Gregorian leap year, as Python's `calendar`/`datetime` use. -/
def isLeap (y : Nat) : Bool :=
  y % 4 == 0 && (y % 100 != 0 || y % 400 == 0)

/-- Number of days in a month of a given year. -/
def daysInMonth (y m : Nat) : Nat :=
  if m == 2 then (if isLeap y then 29 else 28)
  else if m == 4 || m == 6 || m == 9 || m == 11 then 30
  else 31

/-- The `ValueError` that `date.fromisoformat` /
`datetime.fromisoformat` raise on malformed input (the spec's
`ParseError` class). -/
inductive ParseError where
  | valueError
deriving DecidableEq, Repr

/-- Numeric value of a decimal digit character. -/
def digitVal (c : Char) : Nat := c.toNat - '0'.toNat

/-- `date.fromisoformat`: parses exactly the canonical `YYYY-MM-DD`
form (the format the tool docstrings require) and validates the
resulting calendar date, raising `ValueError` otherwise. -/
def date.fromisoformat (s : String) : Except ParseError PyDate :=
  match s.toList with
  | [y1, y2, y3, y4, h1, m1, m2, h2, d1, d2] =>
    if y1.isDigit && y2.isDigit && y3.isDigit && y4.isDigit && h1 == '-' &&
        m1.isDigit && m2.isDigit && h2 == '-' && d1.isDigit && d2.isDigit then
      let y := ((digitVal y1 * 10 + digitVal y2) * 10 + digitVal y3) * 10 + digitVal y4
      let m := digitVal m1 * 10 + digitVal m2
      let d := digitVal d1 * 10 + digitVal d2
      if 1 ≤ y && 1 ≤ m && m ≤ 12 && 1 ≤ d && d ≤ daysInMonth y m then
        .ok ⟨y, m, d⟩
      else .error .valueError
    else .error .valueError
  | _ => .error .valueError

/-- A Python `datetime.datetime` (date plus wall-clock time). -/
structure PyDateTime where
  date : PyDate
  hour : Nat
  minute : Nat
  second : Nat
deriving DecidableEq, Repr

/-- Parse `HH:MM` or `HH:MM:SS` with range checks. -/
def parseTimePart (cs : List Char) : Except ParseError (Nat × Nat × Nat) :=
  match cs with
  | [a1, a2, c1, b1, b2] =>
    if a1.isDigit && a2.isDigit && c1 == ':' && b1.isDigit && b2.isDigit then
      let h := digitVal a1 * 10 + digitVal a2
      let mi := digitVal b1 * 10 + digitVal b2
      if h ≤ 23 && mi ≤ 59 then .ok (h, mi, 0) else .error .valueError
    else .error .valueError
  | [a1, a2, c1, b1, b2, c2, s1, s2] =>
    if a1.isDigit && a2.isDigit && c1 == ':' && b1.isDigit && b2.isDigit &&
        c2 == ':' && s1.isDigit && s2.isDigit then
      let h := digitVal a1 * 10 + digitVal a2
      let mi := digitVal b1 * 10 + digitVal b2
      let sec := digitVal s1 * 10 + digitVal s2
      if h ≤ 23 && mi ≤ 59 && sec ≤ 59 then .ok (h, mi, sec) else .error .valueError
    else .error .valueError
  | _ => .error .valueError

/-- `datetime.fromisoformat`: a date `YYYY-MM-DD`, optionally followed
by a one-character separator and a time `HH:MM` or `HH:MM:SS` (the
forms the restaurant tool is given); midnight when the time part is
absent. Raises `ValueError` otherwise. -/
def datetime.fromisoformat (s : String) : Except ParseError PyDateTime :=
  let cs := s.toList
  match date.fromisoformat (String.mk (cs.take 10)) with
  | .error e => .error e
  | .ok d =>
    match cs.drop 10 with
    | [] => .ok ⟨d, 0, 0, 0⟩
    | _ :: rest =>
      match parseTimePart rest with
      | .ok (h, mi, sec) => .ok ⟨d, h, mi, sec⟩
      | .error e => .error e

/-- `random.randint(a, b)`: an integer uniform over `[a, b]`, both ends
included. The randomness source is made explicit: the draw is a
function of a `seed`, and every value of `[a, b]` is reached as `seed`
ranges over `Nat`. -/
def randint (a b seed : Nat) : Nat :=
  a + seed % (b - a + 1)

/-- Modelled from the spec: `TripType` from `ai_assistant/models.py`
(not in the snapshot) — the tag distinguishing flight from bus trips. -/
inductive TripType where
  | flight
  | bus
deriving DecidableEq, Repr

/-- Modelled from the spec: `TripReservation` from
`ai_assistant/models.py` (not in the snapshot) — kind ∈ {flight, bus},
departure, destination, date, cost; a plain record, no extra
validation. -/
structure TripReservation where
  trip_type : TripType
  departure : String
  destination : String
  date : PyDate
  cost : Nat
deriving DecidableEq, Repr

/-- Modelled from the spec: `HotelReservation` from
`ai_assistant/models.py` (not in the snapshot) — checkin/checkout
dates, hotel name, city, cost; `checkin ≤ checkout` is expected but
unenforced, so construction never fails. -/
structure HotelReservation where
  checkin_date : PyDate
  checkout_date : PyDate
  hotel_name : String
  city : String
  cost : Nat
deriving DecidableEq, Repr

/-- Modelled from the spec: `RestaurantReservation` from
`ai_assistant/models.py` (not in the snapshot) — reservation time,
restaurant, city, dish, cost. -/
structure RestaurantReservation where
  reservation_time : PyDateTime
  restaurant : String
  city : String
  dish : String
  cost : Nat
deriving DecidableEq, Repr

/-- The union of the three record classes, as handed to
`save_reservation`. -/
inductive Reservation where
  | trip (r : TripReservation)
  | hotel (r : HotelReservation)
  | restaurant (r : RestaurantReservation)
deriving DecidableEq, Repr

/-- ISO rendering of a date, zero-padded `YYYY-MM-DD`, as serialized
into the JSON log. -/
def isoOfDate (d : PyDate) : String :=
  let pad2 := fun (n : Nat) => if n < 10 then "0" ++ toString n else toString n
  let pad4 := fun (n : Nat) =>
    if n < 10 then "000" ++ toString n
    else if n < 100 then "00" ++ toString n
    else if n < 1000 then "0" ++ toString n
    else toString n
  pad4 d.year ++ "-" ++ pad2 d.month ++ "-" ++ pad2 d.day

/-- ISO rendering of a datetime, `YYYY-MM-DDTHH:MM:SS`. -/
def isoOfDateTime (t : PyDateTime) : String :=
  let pad2 := fun (n : Nat) => if n < 10 then "0" ++ toString n else toString n
  isoOfDate t.date ++ "T" ++ pad2 t.hour ++ ":" ++ pad2 t.minute ++ ":" ++ pad2 t.second

/-- The string tag of a trip kind. -/
def TripType.tag : TripType → String
  | .flight => "flight"
  | .bus => "bus"

/-- Modelled from the spec: the flat `LogEntry` serialization of a
record — the fields of its variant plus a `reservation_type` string
tag, with dates/times as ISO-8601 strings. -/
def serializeReservation : Reservation → Entry
  | .trip r =>
    [("reservation_type", .str r.trip_type.tag),
     ("departure", .str r.departure),
     ("destination", .str r.destination),
     ("date", .str (isoOfDate r.date)),
     ("cost", .num r.cost)]
  | .hotel r =>
    [("reservation_type", .str "hotel"),
     ("checkin_date", .str (isoOfDate r.checkin_date)),
     ("checkout_date", .str (isoOfDate r.checkout_date)),
     ("hotel_name", .str r.hotel_name),
     ("city", .str r.city),
     ("cost", .num r.cost)]
  | .restaurant r =>
    [("reservation_type", .str "restaurant"),
     ("reservation_time", .str (isoOfDateTime r.reservation_time)),
     ("restaurant", .str r.restaurant),
     ("city", .str r.city),
     ("dish", .str r.dish),
     ("cost", .num r.cost)]

/-- Modelled from the spec: `save_reservation` from
`ai_assistant/utils.py` (not in the snapshot) — read the existing JSON
array (the log), append the new record serialized flat with its
`reservation_type` tag, and rewrite the file. On the embedded log
state this is an append of one serialized entry. -/
def save_reservation (r : Reservation) (log : List Entry) : List Entry :=
  log ++ [serializeReservation r]

/-- `reserve_flight` (lines 33–61 of `tools.py`): parse the date
(raising `ValueError` on bad input, before any log write), build a
`TripReservation` with `trip_type=flight` and `cost=randint(200, 700)`,
save it to the log, and return it. The pair's second component is the
log state after the call: unchanged when the parse fails. -/
def reserve_flight (date_str departure destination : String) (seed : Nat)
    (log : List Entry) : Except ParseError TripReservation × List Entry :=
  match date.fromisoformat date_str with
  | .error e => (.error e, log)
  | .ok d =>
    let reservation : TripReservation :=
      { trip_type := .flight, departure := departure,
        destination := destination, date := d, cost := randint 200 700 seed }
    (.ok reservation, save_reservation (.trip reservation) log)

/-- `reserve_bus` (lines 94–116 of `tools.py`): as `reserve_flight`
but with `trip_type=bus` and `cost=randint(20, 100)`. -/
def reserve_bus (date_str departure destination : String) (seed : Nat)
    (log : List Entry) : Except ParseError TripReservation × List Entry :=
  match date.fromisoformat date_str with
  | .error e => (.error e, log)
  | .ok d =>
    let reservation : TripReservation :=
      { trip_type := .bus, departure := departure,
        destination := destination, date := d, cost := randint 20 100 seed }
    (.ok reservation, save_reservation (.trip reservation) log)

/-- `reserve_hotel` (lines 66–89 of `tools.py`): parse the check-in
date then the check-out date (Python evaluates the keyword arguments
left to right; either failure raises `ValueError` before any log
write), build a `HotelReservation` with `cost=randint(50, 300)` — no
`checkin ≤ checkout` check anywhere — save it and return it. -/
def reserve_hotel (checkin_date checkout_date hotel_name city : String)
    (seed : Nat) (log : List Entry) :
    Except ParseError HotelReservation × List Entry :=
  match date.fromisoformat checkin_date with
  | .error e => (.error e, log)
  | .ok d1 =>
    match date.fromisoformat checkout_date with
    | .error e => (.error e, log)
    | .ok d2 =>
      let reservation : HotelReservation :=
        { checkin_date := d1, checkout_date := d2, hotel_name := hotel_name,
          city := city, cost := randint 50 300 seed }
      (.ok reservation, save_reservation (.hotel reservation) log)

/-- `reserve_restaurant` (lines 121–144 of `tools.py`): parse the
reservation time with `datetime.fromisoformat`, build a
`RestaurantReservation` with `cost=randint(10, 50)`, save it and
return it. -/
def reserve_restaurant (reservation_time restaurant city dish : String)
    (seed : Nat) (log : List Entry) :
    Except ParseError RestaurantReservation × List Entry :=
  match datetime.fromisoformat reservation_time with
  | .error e => (.error e, log)
  | .ok t =>
    let reservation : RestaurantReservation :=
      { reservation_time := t, restaurant := restaurant, city := city,
        dish := dish, cost := randint 10 50 seed }
    (.ok reservation, save_reservation (.restaurant reservation) log)

/-- One invocation of a reservation constructor, with its arguments and
the seed of its random cost draw. -/
inductive Call where
  | flight (date_str departure destination : String) (seed : Nat)
  | bus (date_str departure destination : String) (seed : Nat)
  | hotel (checkin_date checkout_date hotel_name city : String) (seed : Nat)
  | restaurant (reservation_time restaurant city dish : String) (seed : Nat)

/-- Execute one constructor call against a log state, wrapping the
returned record in the `Reservation` union. -/
def execCall (c : Call) (log : List Entry) :
    Except ParseError Reservation × List Entry :=
  match c with
  | .flight ds dep dst seed =>
    let (r, log') := reserve_flight ds dep dst seed log
    (r.map .trip, log')
  | .bus ds dep dst seed =>
    let (r, log') := reserve_bus ds dep dst seed log
    (r.map .trip, log')
  | .hotel ci co hn city seed =>
    let (r, log') := reserve_hotel ci co hn city seed log
    (r.map .hotel, log')
  | .restaurant rt rest city dish seed =>
    let (r, log') := reserve_restaurant rt rest city dish seed log
    (r.map .restaurant, log')

/-- The log entry a call appends when it succeeds (`none` when its
date fails to parse). -/
def callEntry (c : Call) : Option Entry :=
  match (execCall c []).1 with
  | .ok r => some (serializeReservation r)
  | .error _ => none

/-- Run a sequence of constructor calls, threading the log; `none` as
soon as one call fails. -/
def runCalls (calls : List Call) (log : List Entry) : Option (List Entry) :=
  match calls with
  | [] => some log
  | c :: cs =>
    match execCall c log with
    | (.ok _, log') => runCalls cs log'
    | (.error _, _) => none

/-- Spec-side reading of a fallback chain: the value of the first
field of `ks` present in the entry, else `dflt`, evaluated top-down. -/
def firstPresent (ks : List String) (dflt : JVal) (e : Entry) : JVal :=
  match ks with
  | [] => dflt
  | k :: ks =>
    match e.get k with
    | some v => v
    | none => firstPresent ks dflt e

/-- Spec-side cost of an entry: its `cost` field, 0 when absent. -/
def specCost (e : Entry) : Int :=
  match (e.get "cost").getD (.num 0) with
  | .num n => n
  | _ => 0

/-- Spec-side total: the sum of `cost` over all log entries. -/
def sumCosts (l : List Entry) : Int :=
  (l.map specCost).sum

/-- The elements of a list not in `seen`, in first-occurrence order,
`seen` accumulating along the way. -/
def newKeys (seen : List JVal) : List JVal → List JVal
  | [] => []
  | x :: xs => if x ∈ seen then newKeys seen xs else x :: newKeys (seen ++ [x]) xs

/-- The distinct elements of a list, in first-occurrence order. -/
def firstOccurrences (l : List JVal) : List JVal :=
  newKeys [] l

/-- Spec-side activity line of an entry:
`"<reservation_type> on <date> - Cost: $<cost>"`. -/
def activityOf (e : Entry) : String :=
  pyStr ((e.get "reservation_type").getD .null) ++ " on " ++ pyStr (dispDate e) ++
    " - Cost: $" ++ toString (specCost e)

/-- Spec-side activities of a grouping key: the activity lines of the
entries grouped under `k`, in original log order. -/
def cityActs (l : List Entry) (k : JVal) : List String :=
  (l.filter (fun e => groupKey e == k)).map activityOf

/-- Whether the entry's `cost` field (defaulted to 0) is a number, so
that `total_cost += cost` does not raise `TypeError`. -/
def costOk (e : Entry) : Bool :=
  match entryCost e with
  | .ok _ => true
  | .error _ => false

/-! ### Helper lemmas -/

theorem processEntry_eq (t : Int) (d : PlacesDict) (e : Entry) :
    processEntry (t, d) e =
      match entryCost e with
      | .error er => .error er
      | .ok n =>
        match entryResType e with
        | .error er => .error er
        | .ok rt =>
          .ok (t + n,
            dictAppend (dictInsert d (groupKey e)) (groupKey e)
              (pyStr rt ++ " on " ++ pyStr (dispDate e) ++ " - Cost: $" ++ toString n)) := by
  unfold processEntry
  cases entryCost e <;> cases entryResType e <;> rfl

theorem entryCost_ok_specCost {e : Entry} {n : Int} (h : entryCost e = .ok n) :
    specCost e = n := by
  unfold entryCost at h
  unfold specCost
  cases hv : (e.get "cost").getD (.num 0) <;> rw [hv] at h <;> simp_all

theorem activityOf_eq {e : Entry} {n : Int} {rt : JVal}
    (hc : entryCost e = .ok n) (hr : entryResType e = .ok rt) :
    activityOf e =
      pyStr rt ++ " on " ++ pyStr (dispDate e) ++ " - Cost: $" ++ toString n := by
  unfold entryResType at hr
  unfold activityOf
  rw [entryCost_ok_specCost hc]
  cases hv : e.get "reservation_type" <;> rw [hv] at hr <;> simp_all

theorem randint_mem (a b seed : Nat) (hab : a ≤ b) :
    a ≤ randint a b seed ∧ randint a b seed ≤ b := by
  unfold randint
  constructor
  · exact Nat.le_add_right a _
  · have h1 : seed % (b - a + 1) ≤ b - a :=
      Nat.lt_succ_iff.mp (Nat.mod_lt seed (Nat.succ_pos (b - a)))
    omega

theorem dictAppend_keys (d : PlacesDict) (k : JVal) (v : String) :
    (dictAppend d k v).map Prod.fst = d.map Prod.fst := by
  unfold dictAppend
  rw [List.map_map]
  apply List.map_congr_left
  intro p _
  by_cases h : p.1 = k <;> simp [h]

theorem dictAppend_not_mem {d : PlacesDict} {k : JVal} (v : String)
    (h : k ∉ d.map Prod.fst) : dictAppend d k v = d := by
  unfold dictAppend
  conv_rhs => rw [← List.map_id d]
  apply List.map_congr_left
  intro p hp
  have hne : p.1 ≠ k := by
    intro he
    exact h (he ▸ List.mem_map_of_mem Prod.fst hp)
  simp [hne]

theorem dictAppend_append (d1 d2 : PlacesDict) (k : JVal) (v : String) :
    dictAppend (d1 ++ d2) k v = dictAppend d1 k v ++ dictAppend d2 k v := by
  unfold dictAppend
  rw [List.map_append]

theorem mem_newKeys_not_seen {k : JVal} :
    ∀ (l : List JVal) (seen : List JVal), k ∈ newKeys seen l → k ∉ seen := by
  intro l
  induction l with
  | nil => intro seen h; simp [newKeys] at h
  | cons x xs ih =>
    intro seen h
    unfold newKeys at h
    by_cases hx : x ∈ seen
    · rw [if_pos hx] at h
      exact ih seen h
    · rw [if_neg hx] at h
      rcases List.mem_cons.mp h with rfl | h'
      · exact hx
      · intro hk
        exact ih (seen ++ [x]) h' (List.mem_append_left _ hk)

theorem sumCosts_cons (e : Entry) (l : List Entry) :
    sumCosts (e :: l) = specCost e + sumCosts l := by
  simp [sumCosts]

theorem processEntriesFrom_total :
    ∀ (l : List Entry) (t : Int) (d : PlacesDict) (t' : Int) (d' : PlacesDict),
      processEntriesFrom (t, d) l = .ok (t', d') → t' = t + sumCosts l := by
  intro l
  induction l with
  | nil =>
    intro t d t' d' h
    unfold processEntriesFrom at h
    injection h with h
    injection h with h1 h2
    simp [sumCosts, ← h1]
  | cons e l ih =>
    intro t d t' d' h
    unfold processEntriesFrom at h
    rw [processEntry_eq] at h
    cases hc : entryCost e <;> rw [hc] at h
    · exact absurd h (by simp)
    · cases hr : entryResType e <;> rw [hr] at h
      · exact absurd h (by simp)
      · have := ih _ _ _ _ h
        rw [this, sumCosts_cons, entryCost_ok_specCost hc]
        ring

theorem cityActs_cons (e : Entry) (l : List Entry) (k : JVal) :
    cityActs (e :: l) k =
      if groupKey e = k then activityOf e :: cityActs l k else cityActs l k := by
  unfold cityActs
  rw [List.filter_cons]
  by_cases h : groupKey e = k
  · simp [h]
  · simp [h]

theorem cityActs_cons_ne {e : Entry} {k : JVal} (l : List Entry)
    (h : groupKey e ≠ k) : cityActs (e :: l) k = cityActs l k := by
  rw [cityActs_cons, if_neg h]

theorem processEntriesFrom_places :
    ∀ (l : List Entry) (t : Int) (d : PlacesDict) (t' : Int) (d' : PlacesDict),
      processEntriesFrom (t, d) l = .ok (t', d') →
      d' = d.map (fun p => (p.1, p.2 ++ cityActs l p.1)) ++
        (newKeys (d.map Prod.fst) (l.map groupKey)).map (fun k => (k, cityActs l k)) := by
  intro l
  induction l with
  | nil =>
    intro t d t' d' h
    unfold processEntriesFrom at h
    injection h with h
    injection h with h1 h2
    simp [cityActs, newKeys, ← h2]
  | cons e l ih =>
    intro t d t' d' h
    unfold processEntriesFrom at h
    rw [processEntry_eq] at h
    cases hc : entryCost e <;> rw [hc] at h
    · exact absurd h (by simp)
    · rename_i n
      cases hr : entryResType e <;> rw [hr] at h
      · exact absurd h (by simp)
      · rename_i rt
        have hae : activityOf e =
            pyStr rt ++ " on " ++ pyStr (dispDate e) ++ " - Cost: $" ++ toString n :=
          activityOf_eq hc hr
        have key := ih _ _ _ _ h
        rw [← hae] at key
        by_cases hmem : groupKey e ∈ d.map Prod.fst
        · have hins : dictInsert d (groupKey e) = d := by
            rw [dictInsert, if_pos hmem]
          rw [hins] at key
          rw [key, dictAppend_keys]
          have hnew : newKeys (d.map Prod.fst) ((e :: l).map groupKey) =
              newKeys (d.map Prod.fst) (l.map groupKey) := by
            simp only [List.map_cons, newKeys, if_pos hmem]
          rw [hnew]
          congr 1
          · rw [dictAppend, List.map_map]
            apply List.map_congr_left
            intro p _
            by_cases hp : p.1 = groupKey e
            · simp only [Function.comp_apply, if_pos hp]
              rw [cityActs_cons, if_pos hp.symm, hae]
              simp
            · simp only [Function.comp_apply, if_neg hp]
              rw [cityActs_cons_ne l (fun hh => hp hh.symm)]
          · apply List.map_congr_left
            intro k hk
            have hknot : k ∉ d.map Prod.fst := mem_newKeys_not_seen _ _ hk
            have hne : groupKey e ≠ k := fun hh => hknot (hh ▸ hmem)
            rw [cityActs_cons_ne l hne]
        · have hpne : ∀ p ∈ d, p.1 ≠ groupKey e := by
            intro p hp he
            exact hmem (he ▸ List.mem_map_of_mem Prod.fst hp)
          have hins : dictInsert d (groupKey e) = d ++ [(groupKey e, [])] := by
            rw [dictInsert, if_neg hmem]
          rw [hins, dictAppend_append, dictAppend_not_mem _ hmem] at key
          have hone : dictAppend [(groupKey e, [])] (groupKey e) (activityOf e) =
              [(groupKey e, [activityOf e])] := by
            simp [dictAppend]
          rw [hone] at key
          have hkeys : (d ++ [(groupKey e, [activityOf e])]).map Prod.fst =
              d.map Prod.fst ++ [groupKey e] := by
            simp
          rw [hkeys] at key
          rw [key]
          have hnew : newKeys (d.map Prod.fst) ((e :: l).map groupKey) =
              groupKey e :: newKeys (d.map Prod.fst ++ [groupKey e]) (l.map groupKey) := by
            simp only [List.map_cons, newKeys, if_neg hmem]
          rw [hnew, List.map_append, List.map_cons]
          have hd : d.map (fun p => (p.1, p.2 ++ cityActs l p.1)) =
              d.map (fun p => (p.1, p.2 ++ cityActs (e :: l) p.1)) := by
            apply List.map_congr_left
            intro p hp
            rw [cityActs_cons_ne l (fun hh => hpne p hp hh.symm)]
          have hx : cityActs (e :: l) (groupKey e) =
              activityOf e :: cityActs l (groupKey e) := by
            rw [cityActs_cons, if_pos rfl]
          have htail :
              (newKeys (d.map Prod.fst ++ [groupKey e]) (l.map groupKey)).map
                  (fun k => (k, cityActs l k)) =
              (newKeys (d.map Prod.fst ++ [groupKey e]) (l.map groupKey)).map
                  (fun k => (k, cityActs (e :: l) k)) := by
            apply List.map_congr_left
            intro k hk
            have hknot : k ∉ d.map Prod.fst ++ [groupKey e] :=
              mem_newKeys_not_seen _ _ hk
            have hne : groupKey e ≠ k := by
              intro hh
              exact hknot (hh ▸ List.mem_append_right _ (List.mem_singleton.mpr rfl))
            rw [cityActs_cons_ne l hne]
          rw [hd, htail]
          simp only [List.map_nil, List.nil_append, List.map_cons, hx]
          simp

theorem foldl_report_append (places : PlacesDict) :
    ∀ acc : List String,
      places.foldl (fun report p => report ++ ["City: " ++ pyStr p.1] ++ p.2 ++ ["\n"]) acc =
      acc ++ (places.map (fun p => ("City: " ++ pyStr p.1) :: p.2 ++ ["\n"])).flatten := by
  induction places with
  | nil => intro acc; simp
  | cons p ps ih =>
    intro acc
    rw [List.foldl_cons, ih]
    simp

theorem processEntriesFrom_keyError :
    ∀ (l : List Entry) (t : Int) (d : PlacesDict),
      (∀ e ∈ l, costOk e = true) →
      (∃ e ∈ l, e.get "reservation_type" = none) →
      processEntriesFrom (t, d) l = .error (.keyError "reservation_type") := by
  intro l
  induction l with
  | nil =>
    intro t d _ hex
    simp at hex
  | cons e l ih =>
    intro t d hcost hex
    unfold processEntriesFrom
    rw [processEntry_eq]
    have hce : costOk e = true := hcost e (List.mem_cons_self e l)
    have hn : ∃ n, entryCost e = .ok n := by
      unfold costOk at hce
      cases hk : entryCost e
      · rw [hk] at hce
        simp at hce
      · exact ⟨_, rfl⟩
    obtain ⟨n, hn⟩ := hn
    rw [hn]
    by_cases hkey : e.get "reservation_type" = none
    · have hres : entryResType e = .error (.keyError "reservation_type") := by
        unfold entryResType
        rw [hkey]
      rw [hres]
    · obtain ⟨v, hv⟩ := Option.ne_none_iff_exists'.mp hkey
      have hres : entryResType e = .ok v := by
        unfold entryResType
        rw [hv]
      rw [hres]
      apply ih
      · intro e' he'
        exact hcost e' (List.mem_cons_of_mem _ he')
      · obtain ⟨e', he', hnone⟩ := hex
        rcases List.mem_cons.mp he' with rfl | hmem
        · exact absurd hnone hkey
        · exact ⟨e', hmem, hnone⟩

theorem execCall_flight (ds dep dst : String) (seed : Nat) (log : List Entry) :
    execCall (.flight ds dep dst seed) log =
      ((reserve_flight ds dep dst seed log).1.map .trip,
       (reserve_flight ds dep dst seed log).2) := rfl

theorem execCall_bus (ds dep dst : String) (seed : Nat) (log : List Entry) :
    execCall (.bus ds dep dst seed) log =
      ((reserve_bus ds dep dst seed log).1.map .trip,
       (reserve_bus ds dep dst seed log).2) := rfl

theorem execCall_hotel (ci co hn city : String) (seed : Nat) (log : List Entry) :
    execCall (.hotel ci co hn city seed) log =
      ((reserve_hotel ci co hn city seed log).1.map .hotel,
       (reserve_hotel ci co hn city seed log).2) := rfl

theorem execCall_restaurant (rt rest city dish : String) (seed : Nat) (log : List Entry) :
    execCall (.restaurant rt rest city dish seed) log =
      ((reserve_restaurant rt rest city dish seed log).1.map .restaurant,
       (reserve_restaurant rt rest city dish seed log).2) := rfl

theorem reserve_flight_parse_ok {ds : String} {d : PyDate}
    (hp : date.fromisoformat ds = .ok d) (dep dst : String) (seed : Nat)
    (log : List Entry) :
    reserve_flight ds dep dst seed log =
      (.ok ⟨.flight, dep, dst, d, randint 200 700 seed⟩,
       save_reservation (.trip ⟨.flight, dep, dst, d, randint 200 700 seed⟩) log) := by
  unfold reserve_flight
  rw [hp]

theorem reserve_bus_parse_ok {ds : String} {d : PyDate}
    (hp : date.fromisoformat ds = .ok d) (dep dst : String) (seed : Nat)
    (log : List Entry) :
    reserve_bus ds dep dst seed log =
      (.ok ⟨.bus, dep, dst, d, randint 20 100 seed⟩,
       save_reservation (.trip ⟨.bus, dep, dst, d, randint 20 100 seed⟩) log) := by
  unfold reserve_bus
  rw [hp]

theorem reserve_hotel_parse_ok {ci co : String} {d1 d2 : PyDate}
    (hp : date.fromisoformat ci = .ok d1) (hq : date.fromisoformat co = .ok d2)
    (hn city : String) (seed : Nat) (log : List Entry) :
    reserve_hotel ci co hn city seed log =
      (.ok ⟨d1, d2, hn, city, randint 50 300 seed⟩,
       save_reservation (.hotel ⟨d1, d2, hn, city, randint 50 300 seed⟩) log) := by
  unfold reserve_hotel
  rw [hp, hq]

theorem reserve_restaurant_parse_ok {rts : String} {tm : PyDateTime}
    (hp : datetime.fromisoformat rts = .ok tm) (rest city dish : String)
    (seed : Nat) (log : List Entry) :
    reserve_restaurant rts rest city dish seed log =
      (.ok ⟨tm, rest, city, dish, randint 10 50 seed⟩,
       save_reservation (.restaurant ⟨tm, rest, city, dish, randint 10 50 seed⟩) log) := by
  unfold reserve_restaurant
  rw [hp]

theorem reserve_flight_parse_error {ds : String} {e : ParseError}
    (hp : date.fromisoformat ds = .error e) (dep dst : String) (seed : Nat)
    (log : List Entry) :
    reserve_flight ds dep dst seed log = (.error e, log) := by
  unfold reserve_flight
  rw [hp]

theorem reserve_bus_parse_error {ds : String} {e : ParseError}
    (hp : date.fromisoformat ds = .error e) (dep dst : String) (seed : Nat)
    (log : List Entry) :
    reserve_bus ds dep dst seed log = (.error e, log) := by
  unfold reserve_bus
  rw [hp]

theorem reserve_hotel_parse_error_checkin {ci : String} {e : ParseError}
    (hp : date.fromisoformat ci = .error e) (co hn city : String) (seed : Nat)
    (log : List Entry) :
    reserve_hotel ci co hn city seed log = (.error e, log) := by
  unfold reserve_hotel
  rw [hp]

theorem reserve_hotel_parse_error_checkout {ci co : String} {d1 : PyDate} {e : ParseError}
    (hp : date.fromisoformat ci = .ok d1) (hq : date.fromisoformat co = .error e)
    (hn city : String) (seed : Nat) (log : List Entry) :
    reserve_hotel ci co hn city seed log = (.error e, log) := by
  unfold reserve_hotel
  rw [hp, hq]

theorem reserve_restaurant_parse_error {rts : String} {e : ParseError}
    (hp : datetime.fromisoformat rts = .error e) (rest city dish : String)
    (seed : Nat) (log : List Entry) :
    reserve_restaurant rts rest city dish seed log = (.error e, log) := by
  unfold reserve_restaurant
  rw [hp]

theorem callEntry_eq (c : Call) :
    callEntry c =
      match (execCall c []).1 with
      | .ok r => some (serializeReservation r)
      | .error _ => none := rfl

theorem execCall_ok {c : Call} {log log' : List Entry} {r : Reservation}
    (h : execCall c log = (.ok r, log')) :
    log' = log ++ [serializeReservation r] ∧
      callEntry c = some (serializeReservation r) := by
  cases c with
  | flight ds dep dst seed =>
    rw [execCall_flight] at h
    cases hp : date.fromisoformat ds with
    | error e =>
      rw [reserve_flight_parse_error hp] at h
      simp [Except.map] at h
    | ok d =>
      rw [reserve_flight_parse_ok hp] at h
      simp only [Except.map, Prod.mk.injEq, Except.ok.injEq] at h
      obtain ⟨hr, hl⟩ := h
      rw [callEntry_eq, execCall_flight, reserve_flight_parse_ok hp]
      rw [← hr, ← hl]
      simp [save_reservation, Except.map]
  | bus ds dep dst seed =>
    rw [execCall_bus] at h
    cases hp : date.fromisoformat ds with
    | error e =>
      rw [reserve_bus_parse_error hp] at h
      simp [Except.map] at h
    | ok d =>
      rw [reserve_bus_parse_ok hp] at h
      simp only [Except.map, Prod.mk.injEq, Except.ok.injEq] at h
      obtain ⟨hr, hl⟩ := h
      rw [callEntry_eq, execCall_bus, reserve_bus_parse_ok hp]
      rw [← hr, ← hl]
      simp [save_reservation, Except.map]
  | hotel ci co hn city seed =>
    rw [execCall_hotel] at h
    cases hp : date.fromisoformat ci with
    | error e =>
      rw [reserve_hotel_parse_error_checkin hp] at h
      simp [Except.map] at h
    | ok d1 =>
      cases hq : date.fromisoformat co with
      | error e =>
        rw [reserve_hotel_parse_error_checkout hp hq] at h
        simp [Except.map] at h
      | ok d2 =>
        rw [reserve_hotel_parse_ok hp hq] at h
        simp only [Except.map, Prod.mk.injEq, Except.ok.injEq] at h
        obtain ⟨hr, hl⟩ := h
        rw [callEntry_eq, execCall_hotel, reserve_hotel_parse_ok hp hq]
        rw [← hr, ← hl]
        simp [save_reservation, Except.map]
  | restaurant rts rest city dish seed =>
    rw [execCall_restaurant] at h
    cases hp : datetime.fromisoformat rts with
    | error e =>
      rw [reserve_restaurant_parse_error hp] at h
      simp [Except.map] at h
    | ok tm =>
      rw [reserve_restaurant_parse_ok hp] at h
      simp only [Except.map, Prod.mk.injEq, Except.ok.injEq] at h
      obtain ⟨hr, hl⟩ := h
      rw [callEntry_eq, execCall_restaurant, reserve_restaurant_parse_ok hp]
      rw [← hr, ← hl]
      simp [save_reservation, Except.map]

theorem runCalls_append :
    ∀ (calls : List Call) (log log' : List Entry),
      runCalls calls log = some log' →
      log' = log ++ calls.filterMap callEntry ∧
        log'.length = log.length + calls.length := by
  intro calls
  induction calls with
  | nil =>
    intro log log' h
    unfold runCalls at h
    injection h with h
    simp [← h]
  | cons c cs ih =>
    intro log log' h
    unfold runCalls at h
    cases hx : execCall c log with
    | mk res log1 =>
      rw [hx] at h
      cases res with
      | error e => exact absurd h (by simp)
      | ok r =>
        obtain ⟨hlog1, hentry⟩ := execCall_ok hx
        obtain ⟨hl, hlen⟩ := ih _ _ h
        constructor
        · rw [hl, hlog1, List.filterMap_cons, hentry]
          simp
        · rw [hlen, hlog1]
          simp [List.length_append]
          omega

/-! ### Claim theorems -/

/-- C1: for every well-formed log, the total reported by
`generate_trip_report` equals the sum of the `cost` field over all log
entries (an entry without a `cost` field contributing 0): whenever the
loop over the entries succeeds with total `t`, `t = sumCosts l`, and
the produced report is the rendering whose grand-total line carries
`sumCosts l`. -/
theorem trip_report_total (l : List Entry) (t : Int) (places : PlacesDict)
    (h : processEntries l = .ok (t, places)) :
    t = sumCosts l ∧
      generate_trip_report (.valid l) =
        .ok (String.intercalate "\n" (buildReport places (sumCosts l))) := by
  have ht : t = sumCosts l := by
    have h0 := processEntriesFrom_total l 0 [] t places h
    simpa using h0
  refine ⟨ht, ?_⟩
  show (match processEntries l with
      | .error e => Except.error e
      | .ok (total, places) =>
          .ok (String.intercalate "\n" (buildReport places total))) =
    .ok (String.intercalate "\n" (buildReport places (sumCosts l)))
  rw [h, ← ht]

/-- Witness for C1 on the single-entry flight log: the loop yields
total 500, which is the sum of the costs. -/
theorem trip_report_total_witness :
    (500 : Int) =
      sumCosts
        [[("reservation_type", .str "flight"), ("destination", .str "Santa Cruz"),
          ("date", .str "2024-12-01"), ("cost", .num 500)]] ∧
      generate_trip_report (.valid
          [[("reservation_type", .str "flight"), ("destination", .str "Santa Cruz"),
            ("date", .str "2024-12-01"), ("cost", .num 500)]]) =
        .ok (String.intercalate "\n"
          (buildReport [(.str "Santa Cruz", ["flight on 2024-12-01 - Cost: $500"])]
            (sumCosts
              [[("reservation_type", .str "flight"), ("destination", .str "Santa Cruz"),
                ("date", .str "2024-12-01"), ("cost", .num 500)]]))) :=
  trip_report_total _ 500 [(.str "Santa Cruz", ["flight on 2024-12-01 - Cost: $500"])]
    (by rfl)

/-- C2: for every log entry, the grouping key is the first present
field in the order `city`, `destination`, else the literal `"Unknown"`,
and the display date is the first present field in the order `date`,
`checkin_date`, `reservation_time`, else the literal `"Unknown"`. -/
theorem fallback_orders (e : Entry) :
    groupKey e = firstPresent ["city", "destination"] (.str "Unknown") e ∧
      dispDate e =
        firstPresent ["date", "checkin_date", "reservation_time"] (.str "Unknown") e := by
  constructor
  · cases h1 : e.get "city" <;> cases h2 : e.get "destination" <;>
      simp [groupKey, firstPresent, h1, h2]
  · cases h1 : e.get "date" <;> cases h2 : e.get "checkin_date" <;>
      cases h3 : e.get "reservation_time" <;>
      simp [dispDate, firstPresent, h1, h2, h3]

/-- C3: with the log file absent, `generate_trip_report` returns
exactly `"Error: trip log file not found."`; with the file present but
not valid JSON, it returns exactly
`"Error: Could not decode the trip log file."` — both as ordinary
return values (`.ok`), so no exception escapes to the caller. -/
theorem report_file_error_texts :
    generate_trip_report .absent = .ok "Error: trip log file not found." ∧
      generate_trip_report .invalid = .ok "Error: Could not decode the trip log file." :=
  ⟨rfl, rfl⟩

/-- C4: whenever a reservation constructor succeeds (i.e. its date
argument is a valid ISO date/time string), the returned record's cost
lies in the kind-specific inclusive range: flight `[200, 700]`, bus
`[20, 100]`, hotel `[50, 300]`, restaurant `[10, 50]`. -/
theorem reservation_cost_ranges :
    (∀ ds dep dst seed log r log',
        reserve_flight ds dep dst seed log = (.ok r, log') →
        200 ≤ r.cost ∧ r.cost ≤ 700) ∧
      (∀ ds dep dst seed log r log',
          reserve_bus ds dep dst seed log = (.ok r, log') →
          20 ≤ r.cost ∧ r.cost ≤ 100) ∧
      (∀ ci co hn city seed log r log',
          reserve_hotel ci co hn city seed log = (.ok r, log') →
          50 ≤ r.cost ∧ r.cost ≤ 300) ∧
      (∀ rts rest city dish seed log r log',
          reserve_restaurant rts rest city dish seed log = (.ok r, log') →
          10 ≤ r.cost ∧ r.cost ≤ 50) := by
  refine ⟨?_, ?_, ?_, ?_⟩
  · intro ds dep dst seed log r log' h
    cases hp : date.fromisoformat ds with
    | error e =>
      rw [reserve_flight_parse_error hp] at h
      simp at h
    | ok d =>
      rw [reserve_flight_parse_ok hp] at h
      simp only [Prod.mk.injEq, Except.ok.injEq] at h
      rw [← h.1]
      exact randint_mem 200 700 seed (by norm_num)
  · intro ds dep dst seed log r log' h
    cases hp : date.fromisoformat ds with
    | error e =>
      rw [reserve_bus_parse_error hp] at h
      simp at h
    | ok d =>
      rw [reserve_bus_parse_ok hp] at h
      simp only [Prod.mk.injEq, Except.ok.injEq] at h
      rw [← h.1]
      exact randint_mem 20 100 seed (by norm_num)
  · intro ci co hn city seed log r log' h
    cases hp : date.fromisoformat ci with
    | error e =>
      rw [reserve_hotel_parse_error_checkin hp] at h
      simp at h
    | ok d1 =>
      cases hq : date.fromisoformat co with
      | error e =>
        rw [reserve_hotel_parse_error_checkout hp hq] at h
        simp at h
      | ok d2 =>
        rw [reserve_hotel_parse_ok hp hq] at h
        simp only [Prod.mk.injEq, Except.ok.injEq] at h
        rw [← h.1]
        exact randint_mem 50 300 seed (by norm_num)
  · intro rts rest city dish seed log r log' h
    cases hp : datetime.fromisoformat rts with
    | error e =>
      rw [reserve_restaurant_parse_error hp] at h
      simp at h
    | ok tm =>
      rw [reserve_restaurant_parse_ok hp] at h
      simp only [Prod.mk.injEq, Except.ok.injEq] at h
      rw [← h.1]
      exact randint_mem 10 50 seed (by norm_num)

/-- Witness for C4: each constructor applied to a concrete valid ISO
date/time yields a cost inside its range. -/
theorem reservation_cost_ranges_witness :
    (200 ≤ randint 200 700 3 ∧ randint 200 700 3 ≤ 700) ∧
      (20 ≤ randint 20 100 3 ∧ randint 20 100 3 ≤ 100) ∧
      (50 ≤ randint 50 300 3 ∧ randint 50 300 3 ≤ 300) ∧
      (10 ≤ randint 10 50 3 ∧ randint 10 50 3 ≤ 50) :=
  ⟨reservation_cost_ranges.1 "2024-12-01" "La Paz" "Santa Cruz" 3 []
      ⟨.flight, "La Paz", "Santa Cruz", ⟨2024, 12, 1⟩, randint 200 700 3⟩ _ rfl,
    (reservation_cost_ranges.2).1 "2024-12-01" "La Paz" "Uyuni" 3 []
      ⟨.bus, "La Paz", "Uyuni", ⟨2024, 12, 1⟩, randint 20 100 3⟩ _ rfl,
    (reservation_cost_ranges.2).2.1 "2024-12-01" "2024-12-02" "Hotel Oberland" "La Paz" 3 []
      ⟨⟨2024, 12, 1⟩, ⟨2024, 12, 2⟩, "Hotel Oberland", "La Paz", randint 50 300 3⟩ _ rfl,
    (reservation_cost_ranges.2).2.2 "2024-12-01T19:30:00" "Gustu" "La Paz" "salteña" 3 []
      ⟨⟨⟨2024, 12, 1⟩, 19, 30, 0⟩, "Gustu", "La Paz", "salteña", randint 10 50 3⟩ _ rfl⟩

/-- C5: the report is one text block per city — the `City:` header,
then that city's `"<reservation_type> on <date> - Cost: $<cost>"`
activity lines, then a trailing blank separator — followed by the final
grand-total line; on the single-entry log with reservation type
`flight`, destination `Santa Cruz`, date `2024-12-01` and cost 500, the
report is exactly the text containing `City: Santa Cruz`, the line
`flight on 2024-12-01 - Cost: $500`, and the footer
`Total budget for the trip: $500`. -/
theorem report_block_structure :
    (∀ (places : PlacesDict) (total : Int),
        buildReport places total =
          (places.map (fun p => ("City: " ++ pyStr p.1) :: p.2 ++ ["\n"])).flatten ++
            ["Total budget for the trip: $" ++ toString total]) ∧
      generate_trip_report (.valid
          [[("reservation_type", .str "flight"), ("destination", .str "Santa Cruz"),
            ("date", .str "2024-12-01"), ("cost", .num 500)]]) =
        .ok "City: Santa Cruz\nflight on 2024-12-01 - Cost: $500\n\n\nTotal budget for the trip: $500" := by
  constructor
  · intro places total
    unfold buildReport
    rw [foldl_report_append]
    simp
  · rfl

/-- C6: a date/time string rejected by the ISO parser makes the
corresponding constructor fail with the `ValueError`-class parse
failure and leave the log unchanged — for `reserve_hotel`, this covers
a bad check-in date as well as a bad check-out date after a good
check-in. -/
theorem invalid_date_no_append :
    (∀ ds dep dst seed log e, date.fromisoformat ds = .error e →
        reserve_flight ds dep dst seed log = (.error e, log)) ∧
      (∀ ds dep dst seed log e, date.fromisoformat ds = .error e →
          reserve_bus ds dep dst seed log = (.error e, log)) ∧
      (∀ ci co hn city seed log e, date.fromisoformat ci = .error e →
          reserve_hotel ci co hn city seed log = (.error e, log)) ∧
      (∀ ci co hn city seed log d1 e, date.fromisoformat ci = .ok d1 →
          date.fromisoformat co = .error e →
          reserve_hotel ci co hn city seed log = (.error e, log)) ∧
      (∀ rts rest city dish seed log e, datetime.fromisoformat rts = .error e →
          reserve_restaurant rts rest city dish seed log = (.error e, log)) :=
  ⟨fun _ dep dst seed log _ h => reserve_flight_parse_error h dep dst seed log,
    fun _ dep dst seed log _ h => reserve_bus_parse_error h dep dst seed log,
    fun _ co hn city seed log _ h => reserve_hotel_parse_error_checkin h co hn city seed log,
    fun _ _ hn city seed log _ _ h1 h2 =>
      reserve_hotel_parse_error_checkout h1 h2 hn city seed log,
    fun _ rest city dish seed log _ h =>
      reserve_restaurant_parse_error h rest city dish seed log⟩

/-- Witness for C6 at the invalid date `"2024-13-40"` (and the
invalid time `"2024-12-01T25:00"`): every constructor fails and the
(empty) log stays empty. -/
theorem invalid_date_no_append_witness :
    reserve_flight "2024-13-40" "La Paz" "Santa Cruz" 0 [] = (.error .valueError, []) ∧
      reserve_bus "2024-13-40" "La Paz" "Uyuni" 0 [] = (.error .valueError, []) ∧
      reserve_hotel "2024-13-40" "2024-12-01" "Hotel Oberland" "La Paz" 0 [] =
        (.error .valueError, []) ∧
      reserve_hotel "2024-12-01" "2024-13-40" "Hotel Oberland" "La Paz" 0 [] =
        (.error .valueError, []) ∧
      reserve_restaurant "2024-12-01T25:00" "Gustu" "La Paz" "salteña" 0 [] =
        (.error .valueError, []) :=
  ⟨invalid_date_no_append.1 "2024-13-40" "La Paz" "Santa Cruz" 0 [] .valueError rfl,
    invalid_date_no_append.2.1 "2024-13-40" "La Paz" "Uyuni" 0 [] .valueError rfl,
    invalid_date_no_append.2.2.1 "2024-13-40" "2024-12-01" "Hotel Oberland" "La Paz" 0 []
      .valueError rfl,
    invalid_date_no_append.2.2.2.1 "2024-12-01" "2024-13-40" "Hotel Oberland" "La Paz" 0 []
      ⟨2024, 12, 1⟩ .valueError rfl rfl,
    invalid_date_no_append.2.2.2.2 "2024-12-01T25:00" "Gustu" "La Paz" "salteña" 0 []
      .valueError rfl⟩

/-- C7: running N successful reservation constructor calls appends
exactly N serialized entries to the log, in call (insertion) order; the
final log is the initial log followed by the calls' entries, so its
length grows by exactly N — in particular two identical calls append
two entries, not one. -/
theorem reservation_log_roundtrip (calls : List Call) (log log' : List Entry)
    (h : runCalls calls log = some log') :
    log' = log ++ calls.filterMap callEntry ∧
      log'.length = log.length + calls.length :=
  runCalls_append calls log log' h

/-- Witness for C7: the same flight call issued twice from the empty
log yields a two-entry log holding the entry twice. -/
theorem reservation_log_roundtrip_witness :
    ([[("reservation_type", .str "flight"), ("departure", .str "La Paz"),
        ("destination", .str "Santa Cruz"), ("date", .str "2024-12-01"),
        ("cost", .num 200)],
      [("reservation_type", .str "flight"), ("departure", .str "La Paz"),
        ("destination", .str "Santa Cruz"), ("date", .str "2024-12-01"),
        ("cost", .num 200)]] : List Entry) =
      [] ++ ([Call.flight "2024-12-01" "La Paz" "Santa Cruz" 0,
              Call.flight "2024-12-01" "La Paz" "Santa Cruz" 0].filterMap callEntry) ∧
      ([[("reservation_type", .str "flight"), ("departure", .str "La Paz"),
          ("destination", .str "Santa Cruz"), ("date", .str "2024-12-01"),
          ("cost", .num 200)],
        [("reservation_type", .str "flight"), ("departure", .str "La Paz"),
          ("destination", .str "Santa Cruz"), ("date", .str "2024-12-01"),
          ("cost", .num 200)]] : List Entry).length =
        ([] : List Entry).length +
          [Call.flight "2024-12-01" "La Paz" "Santa Cruz" 0,
           Call.flight "2024-12-01" "La Paz" "Santa Cruz" 0].length :=
  reservation_log_roundtrip
    [Call.flight "2024-12-01" "La Paz" "Santa Cruz" 0,
     Call.flight "2024-12-01" "La Paz" "Santa Cruz" 0] [] _ rfl

/-- C8: `reserve_hotel` never compares the two dates: for any pair of
valid ISO dates — including a check-out strictly before the check-in —
it succeeds, builds the record, and appends its serialization to the
log. -/
theorem reserve_hotel_unenforced_order (ci co hn city : String) (seed : Nat)
    (log : List Entry) (d1 d2 : PyDate)
    (hp : date.fromisoformat ci = .ok d1) (hq : date.fromisoformat co = .ok d2) :
    reserve_hotel ci co hn city seed log =
      (.ok ⟨d1, d2, hn, city, randint 50 300 seed⟩,
       log ++ [serializeReservation (.hotel ⟨d1, d2, hn, city, randint 50 300 seed⟩)]) := by
  rw [reserve_hotel_parse_ok hp hq]
  rfl

/-- Witness for C8 with a check-out (2024-12-01) preceding the
check-in (2024-12-05): the reservation succeeds and is appended. -/
theorem reserve_hotel_unenforced_order_witness :
    reserve_hotel "2024-12-05" "2024-12-01" "Hotel Oberland" "La Paz" 0 [] =
      (.ok ⟨⟨2024, 12, 5⟩, ⟨2024, 12, 1⟩, "Hotel Oberland", "La Paz", randint 50 300 0⟩,
       [] ++ [serializeReservation
          (.hotel ⟨⟨2024, 12, 5⟩, ⟨2024, 12, 1⟩, "Hotel Oberland", "La Paz",
            randint 50 300 0⟩)]) :=
  reserve_hotel_unenforced_order "2024-12-05" "2024-12-01" "Hotel Oberland" "La Paz" 0 []
    ⟨2024, 12, 5⟩ ⟨2024, 12, 1⟩ rfl rfl

/-- C9: on a well-formed log (numeric costs) in which some entry lacks
the `reservation_type` field, `generate_trip_report` fails with the
uncaught `KeyError` — it returns neither a report nor one of the two
documented error texts. -/
theorem missing_reservation_type_keyerror (l : List Entry)
    (hc : ∀ e ∈ l, costOk e = true)
    (hm : ∃ e ∈ l, e.get "reservation_type" = none) :
    generate_trip_report (.valid l) = .error (.keyError "reservation_type") := by
  have hk := processEntriesFrom_keyError l 0 [] hc hm
  show (match processEntries l with
      | .error e => Except.error e
      | .ok (total, places) =>
          .ok (String.intercalate "\n" (buildReport places total))) =
    .error (.keyError "reservation_type")
  rw [show processEntries l = .error (.keyError "reservation_type") from hk]

/-- Witness for C9: a one-entry log with a cost but no
`reservation_type` makes the report fail with `KeyError`. -/
theorem missing_reservation_type_keyerror_witness :
    generate_trip_report (.valid [[("cost", .num 5)]]) =
      .error (.keyError "reservation_type") :=
  missing_reservation_type_keyerror [[("cost", .num 5)]]
    (by decide) ⟨[("cost", .num 5)], by simp, rfl⟩

/-- C10: the per-city blocks of the report appear in the order of each
city's first occurrence in the log: a successful pass over the entries
produces exactly the first-occurrence-ordered list of grouping keys,
each paired with its activities in original log order. -/
theorem report_city_insertion_order (l : List Entry) (t : Int) (places : PlacesDict)
    (h : processEntries l = .ok (t, places)) :
    places = (firstOccurrences (l.map groupKey)).map (fun k => (k, cityActs l k)) := by
  have hp := processEntriesFrom_places l 0 [] t places h
  simpa [firstOccurrences] using hp

/-- Witness for C10 on a three-entry log visiting La Paz, Uyuni, then
La Paz again: blocks come out as La Paz (two activities, in log order)
then Uyuni. -/
theorem report_city_insertion_order_witness :
    ([(JVal.str "La Paz",
        ["hotel on 2024-12-01 - Cost: $100", "restaurant on 2024-12-03T19:00:00 - Cost: $30"]),
      (JVal.str "Uyuni", ["flight on 2024-12-02 - Cost: $300"])] : PlacesDict) =
      (firstOccurrences
          (([[("reservation_type", .str "hotel"), ("city", .str "La Paz"),
              ("checkin_date", .str "2024-12-01"), ("cost", .num 100)],
            [("reservation_type", .str "flight"), ("destination", .str "Uyuni"),
              ("date", .str "2024-12-02"), ("cost", .num 300)],
            [("reservation_type", .str "restaurant"), ("city", .str "La Paz"),
              ("reservation_time", .str "2024-12-03T19:00:00"), ("cost", .num 30)]] :
              List Entry).map groupKey)).map
        (fun k =>
          (k, cityActs
            [[("reservation_type", .str "hotel"), ("city", .str "La Paz"),
              ("checkin_date", .str "2024-12-01"), ("cost", .num 100)],
             [("reservation_type", .str "flight"), ("destination", .str "Uyuni"),
              ("date", .str "2024-12-02"), ("cost", .num 300)],
             [("reservation_type", .str "restaurant"), ("city", .str "La Paz"),
              ("reservation_time", .str "2024-12-03T19:00:00"), ("cost", .num 30)]] k)) :=
  report_city_insertion_order
    [[("reservation_type", .str "hotel"), ("city", .str "La Paz"),
       ("checkin_date", .str "2024-12-01"), ("cost", .num 100)],
     [("reservation_type", .str "flight"), ("destination", .str "Uyuni"),
       ("date", .str "2024-12-02"), ("cost", .num 300)],
     [("reservation_type", .str "restaurant"), ("city", .str "La Paz"),
       ("reservation_time", .str "2024-12-03T19:00:00"), ("cost", .num 30)]]
    430 _ rfl
